import Mathlib

/-!
# Fragment3D — asset-generation pipeline, shallow embedding

This file embeds the core of the Fragment3D backend in Lean 4 and proves
properties of it:

* `detectMimeFromBuffer` — the magic-byte format classifier
  (backend/routes/create.js, `detectMimeFromBuffer`);
* the asset record model and every record mutation performed by the routes
  (`POST /upload`, `POST /api/assets/upload-image`,
  `POST /api/assets/:assetId/attach-glb`, `DELETE /api/assets/:assetId`,
  and the background Phase 2 updates inside `POST /upload`);
* the response normalization of the remote `/process_image` and `/process_3d`
  replies;
* seed resolution and the `/process_3d` parameter bag.

Bytes are `List Nat`; timestamps are `Nat`; the remote `fetch` collaborator is
a parameter `env : String → Option Bytes` (`none` models a thrown fetch or a
non-ok response — both leave the stage without an artifact).
-/

namespace Fragment3D

abbrev Bytes := List Nat

/-! ## String helpers (the JS primitives used by the route code) -/

/-- `leadsWith pat l`: the char list `l` starts with `pat`
(JS `String.prototype.startsWith`). -/
def leadsWith : List Char → List Char → Bool
  | [], _ => true
  | _ :: _, [] => false
  | a :: as, b :: bs => a == b && leadsWith as bs

def strStartsWith (s pre : String) : Bool :=
  leadsWith pre.toList s.toList

/-- `hasSub pat l`: `pat` occurs contiguously inside `l`. -/
def hasSub (pat : List Char) : List Char → Bool
  | [] => leadsWith pat []
  | c :: rest => leadsWith pat (c :: rest) || hasSub pat rest

/-- JS `String.prototype.includes`. -/
def strIncludes (s pat : String) : Bool :=
  hasSub pat.toList s.toList

/-- The characters removed by the route's `rawOut.replace(/\s/g, "")`. -/
def isJsWs (c : Char) : Bool :=
  c == ' ' || c == '\t' || c == '\n' || c == '\r' || c == '\x0b' || c == '\x0c'

def stripWs (s : String) : String :=
  ⟨s.toList.filter (fun c => !isJsWs c)⟩

/-- One character of the alphabet tested by the route's
`/^[A-Za-z0-9+\/=]+$/` base64 heuristic. -/
def isB64Char (c : Char) : Bool :=
  c.isAlpha || c.isDigit || c == '+' || c == '/' || c == '='

/-- The route's base64 heuristic regex: nonempty and only alphabet characters. -/
def allB64 (s : String) : Bool :=
  s.length != 0 && s.toList.all isB64Char

/-- The value of one base64 alphabet character (`Buffer.from(s, "base64")`). -/
def b64Val (c : Char) : Option Nat :=
  if 'A' ≤ c ∧ c ≤ 'Z' then some (c.toNat - 65)
  else if 'a' ≤ c ∧ c ≤ 'z' then some (c.toNat - 97 + 26)
  else if '0' ≤ c ∧ c ≤ '9' then some (c.toNat - 48 + 52)
  else if c = '+' then some 62
  else if c = '/' then some 63
  else none

/-- Packs a stream of 6-bit base64 values into bytes. -/
def packB64 : List Nat → Bytes
  | a :: b :: c :: d :: rest =>
    (a * 4 + b / 16) :: ((b % 16) * 16 + c / 4) :: ((c % 4) * 64 + d) :: packB64 rest
  | [a, b] => [a * 4 + b / 16]
  | [a, b, c] => [a * 4 + b / 16, (b % 16) * 16 + c / 4]
  | _ => []

/-- Node `Buffer.from(s, "base64")`: non-alphabet characters (incl. `=`) are skipped,
6-bit groups packed into bytes. -/
def decodeB64 (s : String) : Bytes :=
  packB64 (s.toList.filterMap b64Val)

/-- Splits `l` at the last occurrence of `sep` that leaves a nonempty remainder —
the match performed by the greedy regex `^data:(.+);base64,(.+)$` after the
`data:` marker (the first `(.+)` grabs as much as possible). -/
def greedySplit (sep : List Char) : List Char → Option (List Char × List Char)
  | [] => none
  | c :: rest =>
    match greedySplit sep rest with
    | some (pre, post) => some (c :: pre, post)
    | none =>
      if leadsWith sep (c :: rest) ∧ sep.length < (c :: rest).length then
        some ([], (c :: rest).drop sep.length)
      else none

/-- The route's `rawOut.match(/^data:(.+);base64,(.+)$/)`: returns
`(mime, base64 payload)` when the regex matches. -/
def dataUriMatch (s : String) : Option (String × String) :=
  if strStartsWith s "data:" then
    match greedySplit ";base64,".toList (s.toList.drop 5) with
    | some (pre, post) => if pre.isEmpty then none else some (⟨pre⟩, ⟨post⟩)
    | none => none
  else none

/-- `mime.split("/")[1].split("+")[0] || dflt`. The result is `none` when the mime
has no `/`: there `[1]` is `undefined` and the chained `.split` throws a
`TypeError`, which is swallowed by the surrounding route-level `catch`. -/
def extFromMime (dflt : String) (mime : String) : Option String :=
  match (mime.splitOn "/").drop 1 with
  | sub :: _ =>
    let e := (sub.splitOn "+").headD ""
    some (if e = "" then dflt else e)
  | [] => none

/-- `path.extname(new URL(u).pathname).replace(".", "") || dflt`: the extension of
the last path segment of the URL (query/fragment stripped); `dflt` when the
segment has no extension. -/
def extFromUrlPath (dflt : String) (u : String) : String :=
  let noq := u.toList.takeWhile (fun c => c != '?' && c != '#')
  let seg := (noq.reverse.takeWhile (fun c => c != '/')).reverse
  let ext := seg.reverse.takeWhile (fun c => c != '.')
  if ext.length = seg.length then dflt
  else if ext.isEmpty then dflt
  else if ext.length + 1 = seg.length then dflt
  else String.mk ext.reverse

/-! ## Format Sniffer (create.js `detectMimeFromBuffer`) -/

structure MimeInfo where
  mime : String
  ext : String
  deriving DecidableEq, Repr

/-- create.js lines 223-242: classify a byte buffer from leading magic bytes;
`none` for buffers shorter than 12 bytes or matching no known signature. -/
def detectMimeFromBuffer (buf : Bytes) : Option MimeInfo :=
  if buf.length < 12 then none
  else if buf.take 4 = [0x89, 0x50, 0x4e, 0x47] then some ⟨"image/png", "png"⟩
  else if buf.take 2 = [0xff, 0xd8] then some ⟨"image/jpeg", "jpg"⟩
  else if buf.take 4 = [0x52, 0x49, 0x46, 0x46] ∧ (buf.drop 8).take 4 = [0x57, 0x45, 0x42, 0x50] then
    some ⟨"image/webp", "webp"⟩
  else if buf.take 4 = [0x67, 0x6c, 0x54, 0x46] then some ⟨"model/gltf-binary", "glb"⟩
  else none

/-- `detected.mime.startsWith("image/")`. -/
def isImageMime (mi : MimeInfo) : Bool :=
  strStartsWith mi.mime "image/"

/-- A buffer both classifies and classifies as an image. -/
def bufIsImage (b : Bytes) : Bool :=
  match detectMimeFromBuffer b with
  | some d => isImageMime d
  | none => false

/-! ## Asset records (backend/models/User.js asset subdocument schema) -/

inductive Status where
  | pending
  | processing
  | ready
  | failed
  deriving DecidableEq, Repr

/-- The string stored in the document for each status enum value. -/
def statusStr : Status → String
  | .pending => "pending"
  | .processing => "processing"
  | .ready => "ready"
  | .failed => "failed"

structure AssetMeta where
  seed : Option Int
  segmentedImage : Option String
  uploadedAt : Option Nat
  deriving DecidableEq, Repr

structure Asset where
  imageUrl : String
  glbUrl : Option String
  status : Status
  meta : AssetMeta
  createdAt : Nat
  updatedAt : Option Nat
  generatedAt : Option Nat
  deriving DecidableEq, Repr

/-- The image locators minted by both upload routes:
`protocol://host/uploads/images/filename`. -/
def mkImageUrl (protocol host filename : String) : String :=
  protocol ++ "://" ++ host ++ "/uploads/images/" ++ filename

/-- The asset subdocument created by `POST /upload` (create.js lines 294-303):
`glbUrl: null`, `status: "pending"`, meta holding the provided seed and the
upload time. -/
def newAssetOnUpload (imageUrl : String) (providedSeed : Option Int) (now : Nat) : Asset :=
  { imageUrl := imageUrl
    glbUrl := none
    status := .pending
    meta := { seed := providedSeed, segmentedImage := none, uploadedAt := some now }
    createdAt := now
    updatedAt := none
    generatedAt := none }

/-- The asset subdocument created by `POST /api/assets/upload-image`
(assets.js lines 54-61): `meta` starts `{}`. -/
def newAssetUploadImage (imageUrl : String) (now : Nat) : Asset :=
  { imageUrl := imageUrl
    glbUrl := none
    status := .pending
    meta := { seed := none, segmentedImage := none, uploadedAt := none }
    createdAt := now
    updatedAt := none
    generatedAt := none }

/-- The four-field mutation shared by the attach-glb route (assets.js lines 94-97)
and both branches of the background GLB attach (create.js lines 698-701 and
706-709): set `glbUrl`, `status: "ready"`, `updatedAt`, `generatedAt`. -/
def applyGlbToAsset (a : Asset) (url : String) (now : Nat) : Asset :=
  { a with glbUrl := some url, status := .ready, updatedAt := some now, generatedAt := some now }

/-- The segmented-image mutation (create.js lines 444-445 and 449-450):
`meta.segmentedImage := url`, everything else untouched. -/
def applySegToAsset (a : Asset) (url : String) : Asset :=
  { a with meta := { a.meta with segmentedImage := some url } }

/-- create.js lines 438-454: after segmentation produced a locator, re-read the
record (`fresh`); if found, set its `meta.segmentedImage`; otherwise fall back
to mutating the stale in-memory `createdAsset` snapshot and saving the stale
user document — which stores the snapshot-based record again. -/
def segAttachUpdate (fresh : Option Asset) (snapshot : Asset) (url : String) : Option Asset :=
  match fresh with
  | some sub => some (applySegToAsset sub url)
  | none => some (applySegToAsset snapshot url)

/-- create.js lines 694-712: after a GLB locator was produced, re-read the record
(`fresh`); if found, apply the ready/glb mutation; otherwise fall back to the
stale `createdAsset` snapshot exactly as in `segAttachUpdate`. -/
def bgGlbAttachUpdate (fresh : Option Asset) (snapshot : Asset) (url : String) (now : Nat) :
    Option Asset :=
  match fresh with
  | some sub => some (applyGlbToAsset sub url now)
  | none => some (applyGlbToAsset snapshot url now)

/-- create.js lines 535-542, the Phase 2 abort path when neither candidate buffer
is an image: re-read the record; if found, `sub3.status = sub3.status || "pending"`
and save; if not found, nothing is written. -/
def bgAbortUpdate (fresh : Option Asset) : Option Asset :=
  match fresh with
  | some sub =>
    some { sub with status := if (statusStr sub.status).length = 0 then .pending else sub.status }
  | none => none

/-- create.js lines 713-715: no GLB locator was produced — no record write at all. -/
def bgNoGlbUpdate (st : Option Asset) : Option Asset := st

/-! ## attach-glb and delete routes (assets.js) -/

inductive AttachGlbResult where
  | notFound
  | badRequest
  | ok (asset : Asset)
  deriving DecidableEq, Repr

/-- assets.js lines 76-106, `POST /api/assets/:assetId/attach-glb`.
`st` is the looked-up asset (`none` = not found); `fileUrl` is the locator of a
multipart-uploaded GLB file, if any; `bodyGlbUrl` is `req.body.glbUrl`, with `""`
standing for an absent or empty (JS-falsy) field. The referenced GLB content is
never read on this path, so no byte-level validation can occur. -/
def attachGlbRoute (st : Option Asset) (fileUrl : Option String) (bodyGlbUrl : String)
    (now : Nat) : AttachGlbResult × Option Asset :=
  match st with
  | none => (.notFound, none)
  | some a =>
    match fileUrl with
    | some f => (.ok (applyGlbToAsset a f now), some (applyGlbToAsset a f now))
    | none =>
      if bodyGlbUrl = "" then (.badRequest, some a)
      else (.ok (applyGlbToAsset a bodyGlbUrl now), some (applyGlbToAsset a bodyGlbUrl now))

structure DeleteOutcome where
  newState : Option Asset
  found : Bool
  imageUnlink : Bool
  glbUnlink : Bool
  deriving DecidableEq, Repr

/-- assets.js lines 137-180, `DELETE /api/assets/:assetId`: remove the subdocument
and attempt to unlink each artifact file whose locator passes the route's test
(`asset.imageUrl && asset.imageUrl.includes("/uploads/images/")`, resp.
`asset.glbUrl && asset.glbUrl.includes("/uploads/glb/")`). `imageUnlink` /
`glbUnlink` record whether that test selected the file for deletion (the actual
unlink additionally checks the file exists on disk). -/
def deleteAssetRoute (st : Option Asset) : DeleteOutcome :=
  match st with
  | none => ⟨none, false, false, false⟩
  | some a =>
    ⟨none, true,
      strIncludes a.imageUrl "/uploads/images/",
      match a.glbUrl with
      | some u => strIncludes u "/uploads/glb/"
      | none => false⟩

/-! ## Response normalization (create.js, Step A lines 342-435 and the
background block lines 604-691) -/

/-- A remote-service reply value after the route's `data[0]` extraction.
`obj` models the FileData-like object through the four fields the code
consults (`url`, `link`, `path`, `file`); `other` is a null/undefined reply. -/
inductive RemoteOut where
  | str (s : String)
  | binary (bytes : Bytes)
  | obj (url link pathf filef : Option String)
  | other
  deriving DecidableEq, Repr

/-- JS `a || b` over possibly-missing string fields (an empty string is falsy). -/
def jsOrStr : Option String → Option String → Option String
  | some s, b => if s = "" then b else some s
  | none, b => b

/-- `rawOut.url || rawOut.link || rawOut.path || rawOut.file`. -/
def candidateUrl (url link pathf filef : Option String) : Option String :=
  jsOrStr url (jsOrStr link (jsOrStr pathf filef))

/-- `JSON.stringify` of the modelled FileData object (the four consulted
fields; URLs and paths need no escaping). -/
def serializeObj (url link pathf filef : Option String) : String :=
  let fields := [("url", url), ("link", link), ("path", pathf), ("file", filef)]
  let parts := fields.filterMap
    (fun kv => kv.2.map (fun v => "\"" ++ kv.1 ++ "\":\"" ++ v ++ "\""))
  "\x7b" ++ String.intercalate "," parts ++ "\x7d"

/-- What a normalization branch wrote to the image artifact store. -/
inductive Saved where
  | image (bytes : Bytes) (ext : String)
  | diagText (text : String)
  deriving DecidableEq, Repr

/-- Outcome of the `/process_image` normalization: what was saved, and whether
the local `segmentedImageUrl` variable was assigned the saved locator (it is
later written into `meta.segmentedImage` and returned to the caller). -/
structure ImgNorm where
  saved : Option Saved
  assigned : Bool
  deriving DecidableEq, Repr

/-- create.js lines 355-435: normalization of the `/process_image` reply.
`env` is the `fetch` collaborator: `some bytes` for an ok response body,
`none` for a thrown fetch or a non-ok response. -/
def normalizeProcessImage (env : String → Option Bytes) : RemoteOut → ImgNorm
  | .str s =>
    if strStartsWith s "data:" then
      match dataUriMatch s with
      | some (mime, b64) =>
        match extFromMime "png" mime with
        | some e => ⟨some (.image (decodeB64 b64) e), true⟩
        | none => ⟨none, false⟩
      | none =>
        match env s with
        | some bytes => ⟨some (.image bytes (extFromUrlPath "png" s)), true⟩
        | none => ⟨none, false⟩
    else if strStartsWith s "http://" ∨ strStartsWith s "https://" then
      match env s with
      | some bytes => ⟨some (.image bytes (extFromUrlPath "png" s)), true⟩
      | none => ⟨none, false⟩
    else
      if allB64 (stripWs s) ∧ 100 < (stripWs s).length then
        ⟨some (.image (decodeB64 (stripWs s)) "png"), true⟩
      else ⟨some (.diagText s), true⟩
  | .binary b => ⟨some (.image b "png"), true⟩
  | .obj url link pathf filef =>
    match candidateUrl url link pathf filef with
    | some c =>
      if strStartsWith c "http://" ∨ strStartsWith c "https://" then
        match env c with
        | some bytes => ⟨some (.image bytes (extFromUrlPath "png" c)), true⟩
        | none => ⟨none, false⟩
      else ⟨some (.diagText (serializeObj url link pathf filef)), true⟩
    | none => ⟨some (.diagText (serializeObj url link pathf filef)), true⟩
  | .other => ⟨some (.diagText "\x7b\x7d"), true⟩

/-- Outcome of the `/process_3d` normalization: `savedGlb` is a write to the GLB
store, `savedDiag` a diagnostic written through the image store (object branch
only), `assigned` whether the local `glbUrl` variable was set, `headerWarn`
whether the "missing glTF header" anomaly warning fired. -/
structure GlbNorm where
  savedGlb : Option (Bytes × String)
  savedDiag : Option String
  assigned : Bool
  headerWarn : Bool
  deriving DecidableEq, Repr

/-- A successful GLB save: bytes persisted, `glbUrl` assigned, anomaly warning
iff the bytes do not begin with the ASCII `glTF` header. -/
def glbNormOf (bytes : Bytes) (ext : String) : GlbNorm :=
  ⟨some (bytes, ext), none, true,
    if bytes.take 4 = [0x67, 0x6c, 0x54, 0x46] then false else true⟩

/-- create.js lines 607-691: normalization of the `/process_3d` reply.
An unrecognized string only logs "saving diagnostic." — nothing is persisted;
an unresolvable object is persisted as a diagnostic through the image store
without assigning `glbUrl`. -/
def normalizeProcess3d (env : String → Option Bytes) : RemoteOut → GlbNorm
  | .str s =>
    if strStartsWith s "data:" then
      match dataUriMatch s with
      | some (mime, b64) =>
        match extFromMime "glb" mime with
        | some e => glbNormOf (decodeB64 b64) e
        | none => ⟨none, none, false, false⟩
      | none =>
        match env s with
        | some bytes => glbNormOf bytes (extFromUrlPath "glb" s)
        | none => ⟨none, none, false, false⟩
    else if strStartsWith s "http://" ∨ strStartsWith s "https://" then
      match env s with
      | some bytes => glbNormOf bytes (extFromUrlPath "glb" s)
      | none => ⟨none, none, false, false⟩
    else
      if allB64 (stripWs s) ∧ 100 < (stripWs s).length then
        glbNormOf (decodeB64 (stripWs s)) "glb"
      else ⟨none, none, false, false⟩
  | .binary b => glbNormOf b "glb"
  | .obj url link pathf filef =>
    match candidateUrl url link pathf filef with
    | some c =>
      if strStartsWith c "http://" ∨ strStartsWith c "https://" then
        match env c with
        | some bytes => glbNormOf bytes (extFromUrlPath "glb" c)
        | none => ⟨none, none, false, false⟩
      else ⟨none, some (serializeObj url link pathf filef), false, false⟩
    | none => ⟨none, some (serializeObj url link pathf filef), false, false⟩
  | .other => ⟨none, none, false, false⟩

/-- A string of unrecognized shape for the normalizers: neither a `data:` URI,
nor an http(s) URL, nor a plausible bare base64 payload (alphabet match and
length over 100 after whitespace stripping). -/
def unrecStr (s : String) : Bool :=
  !strStartsWith s "data:" && !strStartsWith s "http://" && !strStartsWith s "https://"
    && !(allB64 (stripWs s) && decide (100 < (stripWs s).length))

/-- A FileData-like object that is unresolvable from this side: its
`url || link || path || file` candidate is missing or not an absolute
http(s) URL. -/
def unresolvableObj (url link pathf filef : Option String) : Bool :=
  match candidateUrl url link pathf filef with
  | some c => !(strStartsWith c "http://" || strStartsWith c "https://")
  | none => true

/-! ## Seed resolution and the /process_3d parameter bag -/

/-- The `/get_random_seed` reply value (`data[0]`). -/
inductive SeedOut where
  | num (n : Int)
  | str (s : String)
  | other
  deriving DecidableEq, Repr

/-- Outcome of the remote `/get_random_seed` call: transport failure or a reply. -/
inductive SeedRemote where
  | fail
  | ret (out : SeedOut)
  deriving DecidableEq, Repr

/-- create.js lines 484-487: the request made to `/get_random_seed`. It is issued
unconditionally — regardless of whether a seed was supplied or randomization
requested — carrying `!!randomize_seed` and the provided seed when numeric,
else `0`. -/
def seedRequest (providedSeed : Option Int) (randomize : Bool) : Bool × Int :=
  (randomize, providedSeed.getD 0)

/-- The reply test `/^\d+$/.test(seedOut)`. -/
def isDigitStr (s : String) : Bool :=
  s.length != 0 && s.toList.all Char.isDigit

/-- create.js lines 476-498: the seed value handed to `/process_3d`. A numeric or
all-digits reply overrides whatever was provided; otherwise, or on failure, the
provided seed is kept, falling back to `0` when none was supplied. The local
logic never consults `randomize`: the remote call is made in every case. -/
def seedStep (providedSeed : Option Int) (randomize : Bool) (remote : SeedRemote) : Int :=
  match remote with
  | .fail => providedSeed.getD 0
  | .ret (.num n) => n
  | .ret (.str s) => if isDigitStr s then ((s.toNat?.getD 0 : Nat) : Int) else providedSeed.getD 0
  | .ret .other => providedSeed.getD 0

/-- A JS value as it may arrive in `req.body.simplify_mesh` (a form-data string
or a JSON boolean). -/
inductive JsBoolish where
  | jstr (s : String)
  | jbool (b : Bool)
  deriving DecidableEq, Repr

/-- The caller-supplied generation parameters (absent fields take the
destructuring defaults of create.js lines 275-283). Numeric fields are modelled
after the `Number()` coercion the route applies. -/
structure UploadBody where
  num_steps : Option Int
  cfg_scale : Option Int
  grid_res : Option Int
  simplify_mesh : Option JsBoolish
  target_num_faces : Option Int
  deriving DecidableEq, Repr

structure Process3dPayload where
  num_steps : Int
  cfg_scale : Int
  grid_res : Int
  seed : Int
  simplify_mesh : Bool
  target_num_faces : Int
  deriving DecidableEq, Repr

/-- create.js lines 580-592: the parameter bag sent to `/process_3d`. Note the
forwarded `simplify_mesh` is `req.body.simplify_mesh === "false" ||
req.body.simplify_mesh === false` when the field was supplied — the negation of
the caller's boolean — and the destructuring default `false` otherwise. -/
def buildProcess3dPayload (body : UploadBody) (seedFor3d : Int) : Process3dPayload :=
  { num_steps := body.num_steps.getD 50
    cfg_scale := body.cfg_scale.getD 7
    grid_res := body.grid_res.getD 384
    seed := seedFor3d
    simplify_mesh :=
      match body.simplify_mesh with
      | some v => decide (v = .jstr "false" ∨ v = .jbool false)
      | none => false
    target_num_faces := body.target_num_faces.getD 100000 }

/-! ## Source-image selection for /process_3d (create.js lines 508-550) -/

/-- create.js lines 529-546, the fallback block: re-read the original upload; use
it when it classifies as an image, otherwise abort (`none`). -/
def origFallback (origBuf : Bytes) : Option (Bytes × String) :=
  match detectMimeFromBuffer origBuf with
  | some d => if isImageMime d then some (origBuf, d.mime) else none
  | none => none

/-- create.js lines 508-550: choose the buffer sent to `/process_3d`.
`segBuf = some bytes` when a segmented-image file was located (locator parsed
and file exists); otherwise the code reads the original upload into
`segBuffer`. The segmented candidate is used when it classifies as an image;
otherwise the original upload; `none` when neither is an image (the abort
path). -/
def selectSourceBuffer (segBuf : Option Bytes) (origBuf : Bytes) : Option (Bytes × String) :=
  match detectMimeFromBuffer (segBuf.getD origBuf) with
  | some d => if isImageMime d then some (segBuf.getD origBuf, d.mime) else origFallback origBuf
  | none => origFallback origBuf

/-! ## The per-asset operation machine -/

/-- The in-memory `createdAsset` object at the moment a Phase 2 fallback runs:
the subdocument built at creation (create.js lines 294-303), possibly already
mutated with a segmented image by the earlier fallback (lines 449-451). -/
def uploadSnapshot (imageUrl : String) (seed : Option Int) (createdAt : Nat)
    (segImg : Option String) : Asset :=
  match segImg with
  | some u => applySegToAsset (newAssetOnUpload imageUrl seed createdAt) u
  | none => newAssetOnUpload imageUrl seed createdAt

/-- One stored-record operation of the provided entry points, acting on a single
asset slot (`none` = no record with this id). The snapshot parameters of the
Phase 2 operations describe the stale `createdAsset` of the originating upload
request. -/
inductive Op where
  | createUpload (imageUrl : String) (seed : Option Int) (now : Nat)
  | createUploadImage (imageUrl : String) (now : Nat)
  | attachGlb (fileUrl : Option String) (bodyGlbUrl : String) (now : Nat)
  | segAttach (snapImageUrl : String) (snapSeed : Option Int) (snapCreatedAt : Nat) (url : String)
  | bgGlbAttach (snapImageUrl : String) (snapSeed : Option Int) (snapCreatedAt : Nat)
      (snapSegImg : Option String) (url : String) (now : Nat)
  | bgAbort
  | deleteAsset

/-- Effect of each operation on the stored record. -/
def applyOp (st : Option Asset) : Op → Option Asset
  | .createUpload u s n => some (newAssetOnUpload u s n)
  | .createUploadImage u n => some (newAssetUploadImage u n)
  | .attachGlb f b n => (attachGlbRoute st f b n).2
  | .segAttach si ss sc url => segAttachUpdate st (uploadSnapshot si ss sc none) url
  | .bgGlbAttach si ss sc sg url n => bgGlbAttachUpdate st (uploadSnapshot si ss sc sg) url n
  | .bgAbort => bgAbortUpdate st
  | .deleteAsset => (deleteAssetRoute st).newState

/-- Run a sequence of operations from the empty slot. -/
def runOps (ops : List Op) : Option Asset :=
  ops.foldl applyOp none

/-- The spec's at-rest record invariant. -/
def assetInv (a : Asset) : Prop :=
  a.glbUrl ≠ none ↔ a.status = Status.ready

def stateInv : Option Asset → Prop
  | none => True
  | some a => assetInv a

/-! ## Helper lemmas -/

theorem statusStr_length_ne_zero (s : Status) : (statusStr s).length ≠ 0 := by
  cases s <;> decide

theorem bgAbortUpdate_eq_id (st : Option Asset) : bgAbortUpdate st = st := by
  cases st with
  | none => rfl
  | some a => simp only [bgAbortUpdate, if_neg (statusStr_length_ne_zero a.status)]

theorem take_two_of_take_four (buf : Bytes) (a b c d : Nat)
    (h : buf.take 4 = [a, b, c, d]) : buf.take 2 = [a, b] := by
  have h2 := congrArg (List.take 2) h
  simpa [List.take_take] using h2

theorem applyOp_inv (st : Option Asset) (op : Op) (h : stateInv st) :
    stateInv (applyOp st op) := by
  cases op with
  | createUpload u s n => simp [applyOp, stateInv, assetInv, newAssetOnUpload]
  | createUploadImage u n => simp [applyOp, stateInv, assetInv, newAssetUploadImage]
  | attachGlb f b n =>
    cases st with
    | none => simp [applyOp, attachGlbRoute, stateInv]
    | some a =>
      cases f with
      | some f0 => simp [applyOp, attachGlbRoute, stateInv, assetInv, applyGlbToAsset]
      | none =>
        by_cases hb : b = ""
        · simpa [applyOp, attachGlbRoute, hb, stateInv] using h
        · simp [applyOp, attachGlbRoute, hb, stateInv, assetInv, applyGlbToAsset]
  | segAttach si ss sc url =>
    cases st with
    | none =>
      simp [applyOp, segAttachUpdate, stateInv, assetInv, applySegToAsset, uploadSnapshot,
        newAssetOnUpload]
    | some a => simpa [applyOp, segAttachUpdate, stateInv, assetInv, applySegToAsset] using h
  | bgGlbAttach si ss sc sg url n =>
    cases st <;> simp [applyOp, bgGlbAttachUpdate, stateInv, assetInv, applyGlbToAsset]
  | bgAbort =>
    have : applyOp st Op.bgAbort = bgAbortUpdate st := rfl
    rw [this, bgAbortUpdate_eq_id]
    exact h
  | deleteAsset => cases st <;> simp [applyOp, deleteAssetRoute, stateInv]

theorem foldl_applyOp_inv (ops : List Op) :
    ∀ st : Option Asset, stateInv st → stateInv (ops.foldl applyOp st) := by
  induction ops with
  | nil => intro st h; exact h
  | cons op rest ih => intro st h; exact ih (applyOp st op) (applyOp_inv st op h)

theorem hasSub_of_leadsWith (p l : List Char) (h : leadsWith p l = true) :
    hasSub p l = true := by
  cases l with
  | nil =>
    cases p with
    | nil => rfl
    | cons a as => simp [leadsWith] at h
  | cons c cs => simp [hasSub, h]

theorem leadsWith_self_append (p r : List Char) : leadsWith p (p ++ r) = true := by
  induction p with
  | nil => rfl
  | cons c cs ih => simp [leadsWith, ih]

theorem hasSub_append_middle (p l r : List Char) : hasSub p (l ++ (p ++ r)) = true := by
  induction l with
  | nil => simpa using hasSub_of_leadsWith p (p ++ r) (leadsWith_self_append p r)
  | cons c cs ih => simp [hasSub, ih]

theorem bufIsImage_none (b : Bytes) (h : detectMimeFromBuffer b = none) :
    bufIsImage b = false := by
  unfold bufIsImage
  rw [h]

theorem bufIsImage_some (b : Bytes) (d : MimeInfo) (h : detectMimeFromBuffer b = some d) :
    bufIsImage b = isImageMime d := by
  unfold bufIsImage
  rw [h]

theorem selectSourceBuffer_of_none (segBuf : Option Bytes) (origBuf : Bytes)
    (h : detectMimeFromBuffer (segBuf.getD origBuf) = none) :
    selectSourceBuffer segBuf origBuf = origFallback origBuf := by
  unfold selectSourceBuffer
  rw [h]

theorem selectSourceBuffer_of_some (segBuf : Option Bytes) (origBuf : Bytes) (d : MimeInfo)
    (h : detectMimeFromBuffer (segBuf.getD origBuf) = some d) :
    selectSourceBuffer segBuf origBuf
      = if isImageMime d then some (segBuf.getD origBuf, d.mime) else origFallback origBuf := by
  unfold selectSourceBuffer
  rw [h]

theorem origFallback_map_fst (origBuf : Bytes) :
    (origFallback origBuf).map Prod.fst
      = if bufIsImage origBuf then some origBuf else none := by
  cases ho : detectMimeFromBuffer origBuf with
  | none =>
    unfold origFallback
    rw [ho, bufIsImage_none _ ho]
    simp
  | some d =>
    unfold origFallback
    rw [ho, bufIsImage_some _ d ho]
    by_cases h : isImageMime d <;> simp [h]

theorem strIncludes_mkImageUrl (protocol host filename : String) :
    strIncludes (mkImageUrl protocol host filename) "/uploads/images/" = true := by
  have hsplit : (mkImageUrl protocol host filename).toList
      = (protocol.toList ++ "://".toList ++ host.toList)
        ++ ("/uploads/images/".toList ++ filename.toList) := by
    simp [mkImageUrl, String.toList, String.data_append, List.append_assoc]
  rw [strIncludes, hsplit]
  exact hasSub_append_middle _ _ _

/-! ## Claim theorems -/

/-- Claim C1: for every asset record at rest after any sequence of the provided
operations (asset creation on upload, attach-glb, the background mesh update,
deletion), `glbUrl` is non-null if and only if `status` is `ready`. -/
theorem c1_glb_ready_invariant (ops : List Op) : stateInv (runOps ops) :=
  foldl_applyOp_inv ops none trivial

/-- Claim C2, counterexample: when the fresh re-read finds no record (the user
deleted the asset), the background GLB attach does NOT silently ignore the
update — it stores a record rebuilt from the stale `createdAsset` snapshot, so
the deleted asset's data is written back. Here the stored slot is non-empty
after the update runs against a deleted record. -/
theorem c2_counterexample :
    (bgGlbAttachUpdate none
      (uploadSnapshot "http://h/uploads/images/a.png" none 0
        (some "http://h/uploads/images/seg.png"))
      "http://h/uploads/glb/g.glb" 5).isSome = true
  ∧ bgGlbAttachUpdate none
      (uploadSnapshot "http://h/uploads/images/a.png" none 0
        (some "http://h/uploads/images/seg.png"))
      "http://h/uploads/glb/g.glb" 5
    = some (applyGlbToAsset
        (uploadSnapshot "http://h/uploads/images/a.png" none 0
          (some "http://h/uploads/images/seg.png"))
        "http://h/uploads/glb/g.glb" 5) :=
  ⟨rfl, rfl⟩

/-- Claim C2, amended: a Phase 2 update whose fresh re-read finds no record
raises no error, but it is not ignored: both the segmented-image update and the
GLB update fall back to mutating the stale pre-deletion snapshot and saving it,
re-creating the asset with the update applied (and the GLB fallback re-creates
it as `ready` with `glbUrl` set). Only the abort path skips the write when the
record is missing. -/
theorem c2_amended (snap : Asset) (url : String) (now : Nat) :
    bgGlbAttachUpdate none snap url now = some (applyGlbToAsset snap url now)
  ∧ (applyGlbToAsset snap url now).status = Status.ready
  ∧ (applyGlbToAsset snap url now).glbUrl = some url
  ∧ segAttachUpdate none snap url = some (applySegToAsset snap url)
  ∧ bgAbortUpdate none = none :=
  ⟨rfl, rfl, rfl, rfl, rfl⟩

/-- Claim C3, counterexample: for the segmentation stage, an unrecognized string
(`"??"`: not a data URI, not http(s), not plausible base64) is persisted as a
`.txt` diagnostic AND its locator is assigned to `segmentedImageUrl` — i.e. the
diagnostic IS treated as the stage's artifact, contradicting the claim that no
artifact is reported for the stage. -/
theorem c3_counterexample :
    normalizeProcessImage (fun _ => none) (RemoteOut.str "??")
      = ⟨some (Saved.diagText "??"), true⟩ :=
  rfl

/-- Claim C3, amended: normalization of an unrecognized shape never throws, but
the two stages differ from the claim. The segmentation stage persists the
payload as a diagnostic and DOES treat the diagnostic locator as the stage's
artifact (`segmentedImageUrl` is assigned). The mesh stage persists nothing at
all for an unrecognized string (it is only logged), and persists an
unresolvable object as a diagnostic without treating it as the artifact
(`glbUrl` stays unassigned). -/
theorem c3_amended (env : String → Option Bytes) (s : String)
    (url link pathf filef : Option String) :
    (unrecStr s = true →
      normalizeProcessImage env (.str s) = ⟨some (.diagText s), true⟩
      ∧ normalizeProcess3d env (.str s) = ⟨none, none, false, false⟩)
  ∧ (unresolvableObj url link pathf filef = true →
      normalizeProcessImage env (.obj url link pathf filef)
        = ⟨some (.diagText (serializeObj url link pathf filef)), true⟩
      ∧ normalizeProcess3d env (.obj url link pathf filef)
        = ⟨none, some (serializeObj url link pathf filef), false, false⟩) := by
  constructor
  · intro h
    simp only [unrecStr, Bool.and_eq_true, Bool.not_eq_true'] at h
    obtain ⟨⟨⟨h1, h2⟩, h3⟩, h4⟩ := h
    have hb : ¬(allB64 (stripWs s) = true ∧ 100 < (stripWs s).length) := by
      rintro ⟨x, y⟩
      simp [x, y] at h4
    constructor
    · simp [normalizeProcessImage, h1, h2, h3, hb]
    · simp [normalizeProcess3d, h1, h2, h3, hb]
  · intro h
    rw [unresolvableObj] at h
    cases hc : candidateUrl url link pathf filef with
    | none => simp [normalizeProcessImage, normalizeProcess3d, hc]
    | some c =>
      rw [hc] at h
      simp only [Bool.not_eq_true', Bool.or_eq_false_iff] at h
      obtain ⟨h1, h2⟩ := h
      constructor
      · simp [normalizeProcessImage, hc, h1, h2]
      · simp [normalizeProcess3d, hc, h1, h2]

/-- Claim C3, amended, witness at concrete inputs: the unrecognized string `"??"`
and the object `\x7b path: "local/p.png" \x7d` whose candidate field is not an
absolute URL. -/
theorem c3_amended_witness :
    normalizeProcess3d (fun _ => none) (RemoteOut.str "??") = ⟨none, none, false, false⟩
  ∧ normalizeProcessImage (fun _ => none) (RemoteOut.obj none none (some "local/p.png") none)
      = ⟨some (.diagText (serializeObj none none (some "local/p.png") none)), true⟩ :=
  ⟨((c3_amended (fun _ => none) "??" none none none none).1 (by decide)).2,
   ((c3_amended (fun _ => none) "x" none none (some "local/p.png") none).2 (by decide)).1⟩

/-- Claim C4, code evaluation: the defaults num_steps=50, cfg_scale=7,
grid_res=384, target_num_faces=100000 and the resolved seed are forwarded, and
`simplify_mesh` defaults to `false` — but a caller-supplied `simplify_mesh` is
forwarded NEGATED (`"false"`/`false` are forwarded as `true`; `"true"`/`true`
as `false`), because the route computes
`req.body.simplify_mesh === "false" || req.body.simplify_mesh === false`. -/
theorem c4_code_evaluation :
    buildProcess3dPayload ⟨none, none, none, none, none⟩ 7
      = ⟨50, 7, 384, 7, false, 100000⟩
  ∧ (buildProcess3dPayload ⟨none, none, none, some (.jstr "false"), none⟩ 0).simplify_mesh = true
  ∧ (buildProcess3dPayload ⟨none, none, none, some (.jstr "true"), none⟩ 0).simplify_mesh = false
  ∧ (buildProcess3dPayload ⟨none, none, none, some (.jbool false), none⟩ 0).simplify_mesh = true
  ∧ (buildProcess3dPayload ⟨none, none, none, some (.jbool true), none⟩ 0).simplify_mesh = false := by
  refine ⟨rfl, ?_, ?_, ?_, ?_⟩ <;> decide

/-- Claim C5, counterexample: the caller supplied seed 5 and did not request
randomization, yet the seed used for mesh generation is whatever the remote
seed-resolution call returns (here 99), because the route calls
`/get_random_seed` unconditionally and lets a numeric reply override the
supplied seed. -/
theorem c5_counterexample :
    seedStep (some 5) false (SeedRemote.ret (SeedOut.num 99)) ≠ 5
  ∧ seedStep (some 5) false (SeedRemote.ret (SeedOut.num 99)) = 99 :=
  ⟨by decide, rfl⟩

/-- Claim C5, amended: the remote seed-resolution operation is always invoked
(with the randomize flag and the supplied seed, `0` when absent); a numeric or
all-digits reply becomes the seed, overriding any caller-supplied value;
otherwise, or on failure, the caller-supplied seed is used, falling back to `0`
when none was supplied. -/
theorem c5_amended (ps : Option Int) (rnd : Bool) (n : Int) (s : String) :
    seedRequest ps rnd = (rnd, ps.getD 0)
  ∧ seedStep ps rnd (.ret (.num n)) = n
  ∧ (isDigitStr s = true →
      seedStep ps rnd (.ret (.str s)) = ((s.toNat?.getD 0 : Nat) : Int))
  ∧ seedStep ps rnd (.ret .other) = ps.getD 0
  ∧ seedStep ps rnd .fail = ps.getD 0 := by
  refine ⟨rfl, rfl, ?_, rfl, rfl⟩
  intro h
  simp [seedStep, h]

/-- Claim C5, amended, witness: a digit-string reply `"42"` overrides the
supplied seed 3. -/
theorem c5_amended_witness :
    seedStep (some 3) true (SeedRemote.ret (SeedOut.str "42"))
      = (("42".toNat?.getD 0 : Nat) : Int) :=
  (c5_amended (some 3) true 0 "42").2.2.1 (by decide)

/-- Claim C6: the format classifier, decided purely from leading magic bytes
(the embedding takes only the byte buffer, so it cannot consult a MIME type or
filename and has no side effects): `png` exactly on the PNG signature, `jpeg`
on `FF D8`, `webp` on `RIFF....WEBP`, `glb` on ASCII `glTF` — in each case for
buffers of at least 12 bytes — and no classification (`unknown`) exactly for
shorter buffers or buffers matching no signature. -/
theorem c6_classifier (buf : Bytes) :
    (detectMimeFromBuffer buf = some ⟨"image/png", "png"⟩ ↔
      12 ≤ buf.length ∧ buf.take 4 = [0x89, 0x50, 0x4e, 0x47])
  ∧ (detectMimeFromBuffer buf = some ⟨"image/jpeg", "jpg"⟩ ↔
      12 ≤ buf.length ∧ buf.take 2 = [0xff, 0xd8])
  ∧ (detectMimeFromBuffer buf = some ⟨"image/webp", "webp"⟩ ↔
      12 ≤ buf.length ∧ buf.take 4 = [0x52, 0x49, 0x46, 0x46]
        ∧ (buf.drop 8).take 4 = [0x57, 0x45, 0x42, 0x50])
  ∧ (detectMimeFromBuffer buf = some ⟨"model/gltf-binary", "glb"⟩ ↔
      12 ≤ buf.length ∧ buf.take 4 = [0x67, 0x6c, 0x54, 0x46])
  ∧ (detectMimeFromBuffer buf = none ↔
      buf.length < 12
      ∨ (buf.take 4 ≠ [0x89, 0x50, 0x4e, 0x47] ∧ buf.take 2 ≠ [0xff, 0xd8]
          ∧ ¬(buf.take 4 = [0x52, 0x49, 0x46, 0x46]
              ∧ (buf.drop 8).take 4 = [0x57, 0x45, 0x42, 0x50])
          ∧ buf.take 4 ≠ [0x67, 0x6c, 0x54, 0x46])) := by
  by_cases h12 : buf.length < 12
  · have h12n : ¬ 12 ≤ buf.length := by omega
    simp [detectMimeFromBuffer, h12, h12n]
  · have h12y : 12 ≤ buf.length := by omega
    by_cases hp : buf.take 4 = [0x89, 0x50, 0x4e, 0x47]
    · have ht2 := take_two_of_take_four buf _ _ _ _ hp
      simp [detectMimeFromBuffer, h12, h12y, hp, ht2]
    · by_cases hj : buf.take 2 = [0xff, 0xd8]
      · have hw : ¬(buf.take 4 = [0x52, 0x49, 0x46, 0x46]
            ∧ (buf.drop 8).take 4 = [0x57, 0x45, 0x42, 0x50]) := by
          rintro ⟨h4, -⟩
          have := take_two_of_take_four buf _ _ _ _ h4
          rw [hj] at this
          simp at this
        have hg : buf.take 4 ≠ [0x67, 0x6c, 0x54, 0x46] := by
          intro h4
          have := take_two_of_take_four buf _ _ _ _ h4
          rw [hj] at this
          simp at this
        simp [detectMimeFromBuffer, h12, h12y, hp, hj, hw, hg]
      · by_cases hw : buf.take 4 = [0x52, 0x49, 0x46, 0x46]
            ∧ (buf.drop 8).take 4 = [0x57, 0x45, 0x42, 0x50]
        · have hg : buf.take 4 ≠ [0x67, 0x6c, 0x54, 0x46] := by
            rw [hw.1]
            simp
          simp [detectMimeFromBuffer, h12, h12y, hp, hj, hw, hw.1, hw.2, hg]
        · by_cases hg : buf.take 4 = [0x67, 0x6c, 0x54, 0x46]
          · simp [detectMimeFromBuffer, h12, h12y, hp, hj, hw, hg]
          · simp [detectMimeFromBuffer, h12, h12y, hp, hj, hw, hg]

/-- Claim C7: Phase 2 selects the segmented buffer when the Format Sniffer
classifies it as an image, falls back to the original upload when that is an
image, and otherwise selects nothing — the abort path, whose record update
changes nothing (and the selection function is total, so no exception
surfaces). -/
theorem c7_source_selection (segBuf : Option Bytes) (origBuf : Bytes) :
    ((selectSourceBuffer segBuf origBuf).map Prod.fst
      = if bufIsImage (segBuf.getD origBuf) then some (segBuf.getD origBuf)
        else if bufIsImage origBuf then some origBuf
        else none)
  ∧ (∀ st : Option Asset, bgAbortUpdate st = st) := by
  constructor
  · cases hd : detectMimeFromBuffer (segBuf.getD origBuf) with
    | none =>
      rw [selectSourceBuffer_of_none segBuf origBuf hd, bufIsImage_none _ hd]
      simp [origFallback_map_fst]
    | some d =>
      rw [selectSourceBuffer_of_some segBuf origBuf d hd, bufIsImage_some _ d hd]
      by_cases h : isImageMime d
      · simp [h]
      · simp [h, origFallback_map_fst]
  · exact bgAbortUpdate_eq_id

/-- Claim C8: once `meta.segmentedImage` is set it is never cleared or
overwritten by a later step: the mesh-success mutation changes only `glbUrl`,
`status`, `updatedAt` and `generatedAt` (meta, imageUrl and createdAt are
untouched), the segmented-image mutation only sets it, the abort path writes
the record back unchanged, the no-GLB path writes nothing, and seed resolution
(`seedStep`) takes no record at all. -/
theorem c8_segmented_preserved (a : Asset) (url : String) (now : Nat) (st : Option Asset) :
    (applyGlbToAsset a url now).meta = a.meta
  ∧ (applyGlbToAsset a url now).meta.segmentedImage = a.meta.segmentedImage
  ∧ (applyGlbToAsset a url now).imageUrl = a.imageUrl
  ∧ (applyGlbToAsset a url now).createdAt = a.createdAt
  ∧ (applySegToAsset a url).meta.segmentedImage = some url
  ∧ bgAbortUpdate (some a) = some a
  ∧ bgNoGlbUpdate st = st := by
  refine ⟨rfl, rfl, rfl, rfl, rfl, ?_, rfl⟩
  exact bgAbortUpdate_eq_id (some a)

/-- Claim C9, counterexample: an asset whose `glbUrl` locator is present but
points outside the local GLB store (an external URL, attachable through
attach-glb) — deletion attempts no GLB byte deletion for it, contradicting
"deletes the stored artifact bytes for both locators whenever those locators
are present". -/
theorem c9_counterexample :
    (Asset.mk "http://h/uploads/images/i.png" (some "http://cdn.example.com/model.glb")
        .ready ⟨none, none, none⟩ 0 (some 1) (some 1)).glbUrl ≠ none
  ∧ (deleteAssetRoute (some (Asset.mk "http://h/uploads/images/i.png"
        (some "http://cdn.example.com/model.glb")
        .ready ⟨none, none, none⟩ 0 (some 1) (some 1)))).glbUnlink = false :=
  ⟨by decide, by decide⟩

/-- Claim C9, amended: deletion removes the record from the collection and
deletes stored artifact bytes per locator test: always for the image locator
(the upload routes mint it inside `/uploads/images/`), and for the GLB locator
exactly when it references the local GLB store (`/uploads/glb/`); a present but
external `glbUrl` triggers no deletion. A second delete finds nothing and is a
no-op. -/
theorem c9_amended (protocol host filename : String) (a : Asset) (u : String)
    (h : a.glbUrl = some u) :
    (deleteAssetRoute (some { a with imageUrl := mkImageUrl protocol host filename })).newState
      = none
  ∧ (deleteAssetRoute (some { a with imageUrl := mkImageUrl protocol host filename })).found
      = true
  ∧ (deleteAssetRoute (some { a with imageUrl := mkImageUrl protocol host filename })).imageUnlink
      = true
  ∧ (deleteAssetRoute (some { a with imageUrl := mkImageUrl protocol host filename })).glbUnlink
      = strIncludes u "/uploads/glb/"
  ∧ deleteAssetRoute none = ⟨none, false, false, false⟩ := by
  refine ⟨rfl, rfl, ?_, ?_, rfl⟩
  · simpa [deleteAssetRoute] using strIncludes_mkImageUrl protocol host filename
  · simp [deleteAssetRoute, h]

/-- Claim C9, amended, witness: a record with an external GLB locator; its
image file is selected for deletion, the external GLB is not. -/
theorem c9_amended_witness :
    (deleteAssetRoute (some { (Asset.mk "x" (some "http://cdn.example.com/model.glb")
        .ready ⟨none, none, none⟩ 0 none none) with
        imageUrl := mkImageUrl "http" "h" "i.png" })).imageUnlink = true
  ∧ (deleteAssetRoute (some { (Asset.mk "x" (some "http://cdn.example.com/model.glb")
        .ready ⟨none, none, none⟩ 0 none none) with
        imageUrl := mkImageUrl "http" "h" "i.png" })).glbUnlink
      = strIncludes "http://cdn.example.com/model.glb" "/uploads/glb/" :=
  ⟨(c9_amended "http" "h" "i.png"
      (Asset.mk "x" (some "http://cdn.example.com/model.glb") .ready ⟨none, none, none⟩ 0 none none)
      "http://cdn.example.com/model.glb" rfl).2.2.1,
   (c9_amended "http" "h" "i.png"
      (Asset.mk "x" (some "http://cdn.example.com/model.glb") .ready ⟨none, none, none⟩ 0 none none)
      "http://cdn.example.com/model.glb" rfl).2.2.2.1⟩

/-- Claim C10: an authorized attach-glb on an existing asset with an uploaded
file, or with any non-empty `glbUrl` body string (arbitrary — the route never
reads the referenced GLB bytes, so no magic-byte or format validation can
occur), sets the record to `ready` with `glbUrl`, `updatedAt` and `generatedAt`
assigned and everything else unchanged; with neither a file nor a URL it fails
with an input-validation error and leaves the record unchanged. -/
theorem c10_attach_glb (a : Asset) (u f : String) (now : Nat) :
    attachGlbRoute (some a) (some f) u now
      = (.ok (applyGlbToAsset a f now), some (applyGlbToAsset a f now))
  ∧ (u ≠ "" → attachGlbRoute (some a) none u now
      = (.ok (applyGlbToAsset a u now), some (applyGlbToAsset a u now)))
  ∧ attachGlbRoute (some a) none "" now = (.badRequest, some a)
  ∧ attachGlbRoute none (some f) u now = (.notFound, none)
  ∧ (applyGlbToAsset a u now).status = Status.ready
  ∧ (applyGlbToAsset a u now).glbUrl = some u
  ∧ (applyGlbToAsset a u now).updatedAt = some now
  ∧ (applyGlbToAsset a u now).generatedAt = some now
  ∧ (applyGlbToAsset a u now).meta = a.meta
  ∧ (applyGlbToAsset a u now).imageUrl = a.imageUrl := by
  refine ⟨rfl, ?_, ?_, rfl, rfl, rfl, rfl, rfl, rfl, rfl⟩
  · intro h
    simp [attachGlbRoute, h]
  · simp [attachGlbRoute]

/-- Claim C10, witness: attaching an arbitrary non-empty URL string (not even a
`.glb` path) to a fresh pending asset succeeds and marks it ready. -/
theorem c10_attach_glb_witness :
    attachGlbRoute (some (newAssetUploadImage "http://h/uploads/images/i.png" 0)) none
        "http://anywhere/x.bin" 3
      = (.ok (applyGlbToAsset (newAssetUploadImage "http://h/uploads/images/i.png" 0)
          "http://anywhere/x.bin" 3),
         some (applyGlbToAsset (newAssetUploadImage "http://h/uploads/images/i.png" 0)
          "http://anywhere/x.bin" 3)) :=
  (c10_attach_glb (newAssetUploadImage "http://h/uploads/images/i.png" 0)
    "http://anywhere/x.bin" "f" 3).2.1 (by decide)

end Fragment3D
